import Mathlib

/-!
Verification of the calendar availability and appointment scheduling engine
(`src/calendar/google_calendar.py` and `src/calendar/calendar_functions.py`).

Shallow embedding conventions:

* Timestamps are minutes since an epoch midnight, as `Int`.  The epoch day
  (day index 0) is a Monday, so a day index `d` has Python `date.weekday()`
  equal to `d % 7` (Monday = 0 … Sunday = 6), matching the source's weekend
  test `current_day.weekday() >= 5`.
* `datetime.date()` is the floor division of a timestamp by 1440 and the
  time-of-day its remainder; Lean's `/` and `%` on `Int` are Euclidean,
  which agrees with Python's floor division for the positive divisors used
  here.
* ISO-8601 datetime strings handed to `datetime.fromisoformat` are embedded
  as `IsoArg`: either the whole string parses (`valid date time`), or only
  its date part before `'T'` parses (`dateOnlyBad`), or even the date part
  fails (`malformed`).  This captures exactly which of the source's parse
  sites raise.
* Python dictionaries returned by the service methods are embedded as
  structures; a dict that may carry an `"error"` key gets an
  `error : Option String` field (`isSome` ↔ the key is present).
* Each async handler is embedded as a pure function returning the list of
  arguments passed to `params.result_callback` (in order) together with the
  list of calendar-gateway methods it invoked.  The `try/except` wrapper of
  every handler is reflected by routing each raising parse site to the
  handler's catch-all result.
-/

/-- Minutes per calendar day. -/
def minutesPerDay : Int := 1440

/-- Python `datetime.date()`: the day index of a timestamp in minutes. -/
def dateOf (t : Int) : Int := t / minutesPerDay

/-- Minutes past midnight of a timestamp. -/
def timeOfDay (t : Int) : Int := t % minutesPerDay

/-- Python `date.weekday()` for a day index (epoch day 0 is a Monday):
Monday = 0, …, Saturday = 5, Sunday = 6. -/
def weekday (day : Int) : Int := day % 7

/-- Python `datetime.hour` of a timestamp. -/
def hourOf (t : Int) : Int := timeOfDay t / 60

/-- A busy interval from the Google Calendar free/busy query
(`busy['start']`, `busy['end']`), after `fromisoformat` and
`tzinfo`-stripping, in minutes.  `stop` embeds the Python key `"end"`. -/
structure BusyInterval where
  start : Int
  stop : Int
deriving DecidableEq

/-- One element of the `free_slots` list built by `_calculate_free_slots`:
the dict `{"start": …, "end": …, "duration_minutes": …}` with the two
isoformat strings embedded as minute timestamps. -/
structure FreeSlot where
  start : Int
  stop : Int
  duration_minutes : Int
deriving DecidableEq

/-- The inner `while` loop of `_calculate_free_slots`
(`google_calendar.py` lines 190–215): starting from `s`, emit one
`slot_duration_minutes`-long slot per iteration while
`current_slot_start + slot_duration <= day_end`, keeping a slot iff it
overlaps no busy interval (`current_slot_start < busy_end and
current_slot_end > busy_start` rejects).  The loop is driven by a fuel
counter so that it is structurally recursive; `slotLoop` below supplies
fuel that never truncates the loop for a positive slot duration
(`slotLoopFuel_stable`), and the Python loop would not terminate at all
for a non-positive duration (every call site uses the default 30). -/
def slotLoopFuel (slotDur : Int) (busy : List BusyInterval) (dayEnd : Int) :
    Nat → Int → List FreeSlot
  | 0, _ => []
  | fuel + 1, s =>
    if s + slotDur ≤ dayEnd then
      let e := s + slotDur
      let is_free := busy.all fun b => !(decide (s < b.stop) && decide (e > b.start))
      (if is_free then [⟨s, e, slotDur⟩] else []) ++
        slotLoopFuel slotDur busy dayEnd fuel e
    else
      []

/-- The inner slot loop with its canonical fuel: one unit of fuel per
remaining minute of the working day, which dominates the number of
iterations whenever `0 < slotDur`. -/
def slotLoop (slotDur : Int) (busy : List BusyInterval) (dayEnd s : Int) :
    List FreeSlot :=
  slotLoopFuel slotDur busy dayEnd (dayEnd - s).toNat s

/-- The outer `while` loop of `_calculate_free_slots`
(`google_calendar.py` lines 177–217): iterate `current_day` from the start
date to the end date inclusive, skipping Saturday/Sunday, and generate the
day's slots between the fixed working hours 09:00 (`WORK_START = 9`) and
18:00 (`WORK_END = 18`).  Again fuel-driven; `dayLoop` supplies one unit
of fuel per day of the range, which is exactly the number of iterations
(`dayLoopFuel_stable`). -/
def dayLoopFuel (slotDur : Int) (busy : List BusyInterval) (endDay : Int) :
    Nat → Int → List FreeSlot
  | 0, _ => []
  | fuel + 1, currentDay =>
    if currentDay ≤ endDay then
      if weekday currentDay ≥ 5 then
        dayLoopFuel slotDur busy endDay fuel (currentDay + 1)
      else
        slotLoop slotDur busy (currentDay * minutesPerDay + 18 * 60)
            (currentDay * minutesPerDay + 9 * 60) ++
          dayLoopFuel slotDur busy endDay fuel (currentDay + 1)
    else
      []

/-- The outer day loop with its canonical fuel: the number of days from
`currentDay` to `endDay` inclusive. -/
def dayLoop (slotDur : Int) (busy : List BusyInterval) (endDay currentDay : Int) :
    List FreeSlot :=
  dayLoopFuel slotDur busy endDay (endDay + 1 - currentDay).toNat currentDay

/-- `GoogleCalendarService._calculate_free_slots(start_dt, end_dt,
busy_slots, timezone, slot_duration_minutes)` (`google_calendar.py`
lines 146–219).  Only the date components of `start_dt` and `end_dt` are
used (lines 174–175); the `timezone` argument is unused by the Python body
and omitted. -/
def calculate_free_slots (start_dt end_dt : Int) (busy : List BusyInterval)
    (slot_duration_minutes : Int) : List FreeSlot :=
  dayLoop slot_duration_minutes busy (dateOf end_dt) (dateOf start_dt)

/-- Faithfulness of the fuel discipline for the inner loop: for a positive
slot duration, any two fuels at least `(dayEnd - s).toNat` compute the same
list, i.e. the loop always stops because its guard fails, never because
fuel runs out. -/
theorem slotLoopFuel_congr (slotDur : Int) (busy : List BusyInterval)
    (dayEnd : Int) (hdur : 0 < slotDur) :
    ∀ f₁ f₂ s, (dayEnd - s).toNat ≤ f₁ → (dayEnd - s).toNat ≤ f₂ →
      slotLoopFuel slotDur busy dayEnd f₁ s = slotLoopFuel slotDur busy dayEnd f₂ s := by
  intro f₁
  induction f₁ with
  | zero =>
    intro f₂ s h1 h2
    have hg : ¬ s + slotDur ≤ dayEnd := by omega
    cases f₂ with
    | zero => rfl
    | succ m => simp [slotLoopFuel, hg]
  | succ n ih =>
    intro f₂ s h1 h2
    cases f₂ with
    | zero =>
      have hg : ¬ s + slotDur ≤ dayEnd := by omega
      simp [slotLoopFuel, hg]
    | succ m =>
      by_cases hg : s + slotDur ≤ dayEnd
      · have h1' : (dayEnd - (s + slotDur)).toNat ≤ n := by omega
        have h2' : (dayEnd - (s + slotDur)).toNat ≤ m := by omega
        simp only [slotLoopFuel, if_pos hg]
        rw [ih m (s + slotDur) h1' h2']
      · simp [slotLoopFuel, hg]

/-- The canonical fuel of `slotLoop` is sufficient. -/
theorem slotLoopFuel_stable (slotDur : Int) (busy : List BusyInterval)
    (dayEnd : Int) (hdur : 0 < slotDur) (fuel : Nat) (s : Int)
    (hs : (dayEnd - s).toNat ≤ fuel) :
    slotLoopFuel slotDur busy dayEnd fuel s = slotLoop slotDur busy dayEnd s :=
  slotLoopFuel_congr slotDur busy dayEnd hdur fuel (dayEnd - s).toNat s hs le_rfl

/-- Faithfulness of the fuel discipline for the outer loop: any two fuels
at least the number of remaining days compute the same list. -/
theorem dayLoopFuel_congr (slotDur : Int) (busy : List BusyInterval)
    (endDay : Int) :
    ∀ f₁ f₂ cur, (endDay + 1 - cur).toNat ≤ f₁ → (endDay + 1 - cur).toNat ≤ f₂ →
      dayLoopFuel slotDur busy endDay f₁ cur = dayLoopFuel slotDur busy endDay f₂ cur := by
  intro f₁
  induction f₁ with
  | zero =>
    intro f₂ cur h1 h2
    have hg : ¬ cur ≤ endDay := by omega
    cases f₂ with
    | zero => rfl
    | succ m => simp [dayLoopFuel, hg]
  | succ n ih =>
    intro f₂ cur h1 h2
    cases f₂ with
    | zero =>
      have hg : ¬ cur ≤ endDay := by omega
      simp [dayLoopFuel, hg]
    | succ m =>
      by_cases hg : cur ≤ endDay
      · have h1' : (endDay + 1 - (cur + 1)).toNat ≤ n := by omega
        have h2' : (endDay + 1 - (cur + 1)).toNat ≤ m := by omega
        simp only [dayLoopFuel, if_pos hg]
        rw [ih m (cur + 1) h1' h2']
      · simp [dayLoopFuel, hg]

/-- The canonical fuel of `dayLoop` is sufficient. -/
theorem dayLoopFuel_stable (slotDur : Int) (busy : List BusyInterval)
    (endDay : Int) (fuel : Nat) (cur : Int)
    (hc : (endDay + 1 - cur).toNat ≤ fuel) :
    dayLoopFuel slotDur busy endDay fuel cur = dayLoop slotDur busy endDay cur :=
  dayLoopFuel_congr slotDur busy endDay fuel (endDay + 1 - cur).toNat cur hc le_rfl

/-- Every slot emitted by the inner loop starts no earlier than the loop
cursor, has length and recorded duration `slotDur`, ends by `dayEnd`, and
passes the busy-overlap test of `google_calendar.py` lines 193–206. -/
theorem slotLoopFuel_mem (slotDur : Int) (busy : List BusyInterval) (dayEnd : Int)
    (hdur : 0 < slotDur) :
    ∀ fuel s x, x ∈ slotLoopFuel slotDur busy dayEnd fuel s →
      s ≤ x.start ∧ x.stop = x.start + slotDur ∧ x.duration_minutes = slotDur ∧
      x.stop ≤ dayEnd ∧
      ∀ b ∈ busy, ¬(x.start < b.stop ∧ b.start < x.stop) := by
  intro fuel
  induction fuel with
  | zero =>
    intro s x hx
    simp [slotLoopFuel] at hx
  | succ n ih =>
    intro s x hx
    simp only [slotLoopFuel] at hx
    by_cases hg : s + slotDur ≤ dayEnd
    · rw [if_pos hg] at hx
      rcases List.mem_append.mp hx with hx | hx
      · by_cases hfree :
            (busy.all fun b => !(decide (s < b.stop) && decide (s + slotDur > b.start))) = true
        · rw [if_pos hfree] at hx
          have hxs : x = ⟨s, s + slotDur, slotDur⟩ := by simpa using hx
          subst hxs
          refine ⟨le_refl _, rfl, rfl, hg, ?_⟩
          intro b hb hcon
          have hball := List.all_eq_true.mp hfree b hb
          simp only [Bool.not_eq_eq_eq_not, Bool.not_true, Bool.and_eq_false_imp,
            decide_eq_true_eq, decide_eq_false_iff_not] at hball
          simp only at hcon
          rcases hcon with ⟨hc1, hc2⟩
          exact absurd hc2 (by simpa using hball hc1)
        · rw [if_neg hfree] at hx
          simp at hx
      · have h := ih (s + slotDur) x hx
        exact ⟨by omega, h.2.1, h.2.2.1, h.2.2.2.1, h.2.2.2.2⟩
    · rw [if_neg hg] at hx
      simp at hx

/-- Every slot produced by the day loop belongs to some in-range weekday
`d`, lies inside that day's 09:00–18:00 working window, has the configured
duration, and passes the busy-overlap test. -/
theorem dayLoopFuel_mem (slotDur : Int) (busy : List BusyInterval) (endDay : Int)
    (hdur : 0 < slotDur) :
    ∀ fuel cur x, x ∈ dayLoopFuel slotDur busy endDay fuel cur →
      ∃ d, cur ≤ d ∧ d ≤ endDay ∧ weekday d < 5 ∧
        d * 1440 + 540 ≤ x.start ∧ x.stop = x.start + slotDur ∧
        x.duration_minutes = slotDur ∧ x.stop ≤ d * 1440 + 1080 ∧
        ∀ b ∈ busy, ¬(x.start < b.stop ∧ b.start < x.stop) := by
  intro fuel
  induction fuel with
  | zero =>
    intro cur x hx
    simp [dayLoopFuel] at hx
  | succ n ih =>
    intro cur x hx
    simp only [dayLoopFuel] at hx
    by_cases hg : cur ≤ endDay
    · rw [if_pos hg] at hx
      by_cases hw : weekday cur ≥ 5
      · rw [if_pos hw] at hx
        obtain ⟨d, hd⟩ := ih (cur + 1) x hx
        exact ⟨d, by omega, hd.2.1, hd.2.2.1, hd.2.2.2.1, hd.2.2.2.2.1,
          hd.2.2.2.2.2.1, hd.2.2.2.2.2.2.1, hd.2.2.2.2.2.2.2⟩
      · rw [if_neg hw] at hx
        rcases List.mem_append.mp hx with hx | hx
        · have h := slotLoopFuel_mem slotDur busy (cur * minutesPerDay + 18 * 60) hdur _ _ x hx
          refine ⟨cur, le_refl _, hg, by omega, ?_, h.2.1, h.2.2.1, ?_, h.2.2.2.2⟩
          · have := h.1
            simp only [minutesPerDay] at this
            omega
          · have := h.2.2.2.1
            simp only [minutesPerDay] at this
            omega
        · obtain ⟨d, hd⟩ := ih (cur + 1) x hx
          exact ⟨d, by omega, hd.2.1, hd.2.2.1, hd.2.2.2.1, hd.2.2.2.2.1,
            hd.2.2.2.2.2.1, hd.2.2.2.2.2.2.1, hd.2.2.2.2.2.2.2⟩
    · rw [if_neg hg] at hx
      simp at hx

/-- Slots emitted by the inner loop are pairwise disjoint and ascending:
each slot ends no later than any later slot starts. -/
theorem slotLoopFuel_pairwise (slotDur : Int) (busy : List BusyInterval)
    (dayEnd : Int) (hdur : 0 < slotDur) :
    ∀ fuel s, List.Pairwise (fun a b : FreeSlot => a.stop ≤ b.start)
      (slotLoopFuel slotDur busy dayEnd fuel s) := by
  intro fuel
  induction fuel with
  | zero =>
    intro s
    simp [slotLoopFuel]
  | succ n ih =>
    intro s
    simp only [slotLoopFuel]
    by_cases hg : s + slotDur ≤ dayEnd
    · rw [if_pos hg]
      refine List.pairwise_append.mpr ⟨?_, ih (s + slotDur), ?_⟩
      · by_cases hfree :
            (busy.all fun b => !(decide (s < b.stop) && decide (s + slotDur > b.start))) = true
        · rw [if_pos hfree]
          simp
        · rw [if_neg hfree]
          simp
      · intro a ha b hb
        have hmem := slotLoopFuel_mem slotDur busy dayEnd hdur n (s + slotDur) b hb
        have haeq : a = ⟨s, s + slotDur, slotDur⟩ := by
          by_cases hfree :
              (busy.all fun b => !(decide (s < b.stop) && decide (s + slotDur > b.start))) = true
          · rw [if_pos hfree] at ha
            simpa using ha
          · rw [if_neg hfree] at ha
            simp at ha
        subst haeq
        simpa using hmem.1
    · rw [if_neg hg]
      simp

/-- Slots produced by the day loop are pairwise disjoint and ascending
across days as well as within a day. -/
theorem dayLoopFuel_pairwise (slotDur : Int) (busy : List BusyInterval)
    (endDay : Int) (hdur : 0 < slotDur) :
    ∀ fuel cur, List.Pairwise (fun a b : FreeSlot => a.stop ≤ b.start)
      (dayLoopFuel slotDur busy endDay fuel cur) := by
  intro fuel
  induction fuel with
  | zero =>
    intro cur
    simp [dayLoopFuel]
  | succ n ih =>
    intro cur
    simp only [dayLoopFuel]
    by_cases hg : cur ≤ endDay
    · rw [if_pos hg]
      by_cases hw : weekday cur ≥ 5
      · rw [if_pos hw]
        exact ih (cur + 1)
      · rw [if_neg hw]
        refine List.pairwise_append.mpr
          ⟨slotLoopFuel_pairwise slotDur busy _ hdur _ _, ih (cur + 1), ?_⟩
        intro a ha b hb
        have hma := slotLoopFuel_mem slotDur busy (cur * minutesPerDay + 18 * 60) hdur _ _ a ha
        obtain ⟨d, hd⟩ := dayLoopFuel_mem slotDur busy endDay hdur n (cur + 1) b hb
        have h1 : a.stop ≤ cur * minutesPerDay + 18 * 60 := hma.2.2.2.1
        have h2 : d * 1440 + 540 ≤ b.start := hd.2.2.2.1
        have h3 : cur + 1 ≤ d := hd.1
        simp only [minutesPerDay] at h1
        nlinarith
    · rw [if_neg hg]
      simp

/-- Claim C1 (corrected), counterexample: with a single weekday window from
09:00 to 10:30 (day index 0 is a Monday; 540 = 09:00, 630 = 10:30 in
minutes), one busy interval 09:00–10:00 and duration 30,
`_calculate_free_slots` does NOT return the one-element list
`[{10:00, 10:30}]`: the end of the range only bounds the day iteration via
its date component, so within-day slot generation always runs to the fixed
18:00 close. -/
theorem claim1_counterexample :
    calculate_free_slots 540 630 [⟨540, 600⟩] 30 ≠
      [⟨600, 630, 30⟩] := by decide

/-- Claim C1 (corrected), amended statement: for the window of one weekday
with `rangeStart` 09:00 and `rangeEnd` 10:30, busy `[{09:00, 10:00}]` and
duration 30, `_calculate_free_slots` returns the sixteen slots from
10:00–10:30 up to 17:30–18:00; in particular `{10:00, 10:30}` is the first
slot, but the 10:30 range end does not cut off generation, which continues
to the fixed 18:00 working-hours close. -/
theorem claim1_amended :
    calculate_free_slots 540 630 [⟨540, 600⟩] 30 =
      [⟨600, 630, 30⟩, ⟨630, 660, 30⟩, ⟨660, 690, 30⟩, ⟨690, 720, 30⟩,
       ⟨720, 750, 30⟩, ⟨750, 780, 30⟩, ⟨780, 810, 30⟩, ⟨810, 840, 30⟩,
       ⟨840, 870, 30⟩, ⟨870, 900, 30⟩, ⟨900, 930, 30⟩, ⟨930, 960, 30⟩,
       ⟨960, 990, 30⟩, ⟨990, 1020, 30⟩, ⟨1020, 1050, 30⟩,
       ⟨1050, 1080, 30⟩] := by decide

/-- Claim C2: no free slot returned by `_calculate_free_slots` (with the
default 30-minute duration) intersects any busy interval, where slot
`[start, stop)` misses busy `[bstart, bstop)` iff
`start ≥ bstop ∨ stop ≤ bstart`. -/
theorem claim2_no_busy_intersection (start_dt end_dt : Int)
    (busy : List BusyInterval) :
    ∀ x ∈ calculate_free_slots start_dt end_dt busy 30, ∀ b ∈ busy,
      x.start ≥ b.stop ∨ x.stop ≤ b.start := by
  intro x hx b hb
  obtain ⟨d, hd⟩ := dayLoopFuel_mem 30 busy (dateOf end_dt) (by norm_num) _ _ x hx
  have hfree := hd.2.2.2.2.2.2.2 b hb
  omega

/-- Claim C3: the slot list returned by `_calculate_free_slots` with the
default 30-minute duration is chronologically ascending with no two slots
overlapping (each slot ends no later than the next starts and starts
strictly increase), every slot is exactly 30 minutes long (and records that
duration), and every slot starts on a Monday–Friday day at a time of day in
[09:00, 18:00). -/
theorem claim3_slot_invariants (start_dt end_dt : Int)
    (busy : List BusyInterval) :
    List.Pairwise (fun a b : FreeSlot => a.stop ≤ b.start ∧ a.start < b.start)
      (calculate_free_slots start_dt end_dt busy 30) ∧
    ∀ x ∈ calculate_free_slots start_dt end_dt busy 30,
      x.stop - x.start = 30 ∧ x.duration_minutes = 30 ∧
      weekday (dateOf x.start) < 5 ∧
      540 ≤ timeOfDay x.start ∧ timeOfDay x.start < 1080 := by
  constructor
  · have hp := dayLoopFuel_pairwise 30 busy (dateOf end_dt) (by norm_num)
      (dateOf end_dt + 1 - dateOf start_dt).toNat (dateOf start_dt)
    refine List.Pairwise.imp_of_mem ?_ hp
    intro a b ha hb hab
    obtain ⟨d, hd⟩ := dayLoopFuel_mem 30 busy (dateOf end_dt) (by norm_num) _ _ a ha
    exact ⟨hab, by omega⟩
  · intro x hx
    obtain ⟨d, hcd, hde, hwk, hs1, hse, hdm, hs2, hfree⟩ :=
      dayLoopFuel_mem 30 busy (dateOf end_dt) (by norm_num) _ _ x hx
    have hub : x.start ≤ d * 1440 + 1050 := by omega
    have hdate : dateOf x.start = d := by
      simp only [dateOf, minutesPerDay]
      clear hse hs2 hfree hx
      omega
    refine ⟨by omega, hdm, ?_, ?_, ?_⟩
    · rw [hdate]
      exact hwk
    · simp only [timeOfDay, minutesPerDay]
      clear hse hs2 hfree hx
      omega
    · simp only [timeOfDay, minutesPerDay]
      clear hse hs2 hfree hx
      omega

/-- Witness for C2 at a concrete input: the slot 10:00–10:30 produced for
the window of C1 does not intersect the busy interval 09:00–10:00. -/
theorem claim2_witness :
    (⟨600, 630, 30⟩ : FreeSlot).start ≥ (⟨540, 600⟩ : BusyInterval).stop ∨
      (⟨600, 630, 30⟩ : FreeSlot).stop ≤ (⟨540, 600⟩ : BusyInterval).start :=
  claim2_no_busy_intersection 540 630 [⟨540, 600⟩]
    ⟨600, 630, 30⟩ (by decide) ⟨540, 600⟩ (by decide)

/-- Witness for C3 at a concrete input: the slot 10:00–10:30 produced for
the window of C1 is 30 minutes long, recorded as such, on a weekday, within
working hours. -/
theorem claim3_witness :
    (⟨600, 630, 30⟩ : FreeSlot).stop - (⟨600, 630, 30⟩ : FreeSlot).start = 30 ∧
    (⟨600, 630, 30⟩ : FreeSlot).duration_minutes = 30 ∧
    weekday (dateOf (⟨600, 630, 30⟩ : FreeSlot).start) < 5 ∧
    540 ≤ timeOfDay (⟨600, 630, 30⟩ : FreeSlot).start ∧
    timeOfDay (⟨600, 630, 30⟩ : FreeSlot).start < 1080 :=
  (claim3_slot_invariants 540 630 [⟨540, 600⟩]).2 ⟨600, 630, 30⟩ (by decide)

/-- `_filter_by_time_preference(slots, preference)`
(`calendar_functions.py` lines 601–618): `"any"` returns the list
unchanged; otherwise the loop keeps a slot iff the `elif` chain matches the
preference with the band containing the slot's start hour
(morning = [9,12), afternoon = [12,17), evening = [17,20)); a preference
matching no branch appends nothing. -/
def filter_by_time_preference (slots : List FreeSlot) (preference : String) :
    List FreeSlot :=
  if preference = "any" then slots
  else
    slots.filter fun slot =>
      let hour := hourOf slot.start
      if preference = "morning" ∧ 9 ≤ hour ∧ hour < 12 then true
      else if preference = "afternoon" ∧ 12 ≤ hour ∧ hour < 17 then true
      else if preference = "evening" ∧ 17 ≤ hour ∧ hour < 20 then true
      else false

/-- Claim C8: filtering by `"morning"`/`"afternoon"`/`"evening"` retains
exactly the slots whose start hour lies in [9,12) / [12,17) / [17,20)
respectively — stated as equality with `List.filter`, which preserves
relative order by construction — and `"any"` returns the input unchanged. -/
theorem claim8_preference_filter (slots : List FreeSlot) :
    filter_by_time_preference slots "morning" =
      slots.filter (fun s => decide (9 ≤ hourOf s.start ∧ hourOf s.start < 12)) ∧
    filter_by_time_preference slots "afternoon" =
      slots.filter (fun s => decide (12 ≤ hourOf s.start ∧ hourOf s.start < 17)) ∧
    filter_by_time_preference slots "evening" =
      slots.filter (fun s => decide (17 ≤ hourOf s.start ∧ hourOf s.start < 20)) ∧
    filter_by_time_preference slots "any" = slots := by
  refine ⟨?_, ?_, ?_, by rw [filter_by_time_preference, if_pos rfl]⟩ <;>
    rw [filter_by_time_preference, if_neg (by decide)] <;>
    refine List.filter_congr ?_ <;>
    intro a _
  · by_cases h : 9 ≤ hourOf a.start ∧ hourOf a.start < 12 <;> simp [h]
  · by_cases h : 12 ≤ hourOf a.start ∧ hourOf a.start < 17 <;> simp [h]
  · by_cases h : 17 ≤ hourOf a.start ∧ hourOf a.start < 20 <;> simp [h]

/-- Claim C10: a preference outside
`{"any", "morning", "afternoon", "evening"}` (such as a concrete time like
`"14:00"`) matches no branch of the `elif` chain, so the filter rejects
every slot and returns the empty list. -/
theorem claim10_unknown_preference_empty (slots : List FreeSlot)
    (preference : String)
    (h : preference ∉ (["any", "morning", "afternoon", "evening"] : List String)) :
    filter_by_time_preference slots preference = [] := by
  simp only [List.mem_cons, List.not_mem_nil, or_false, not_or] at h
  obtain ⟨h1, h2, h3, h4⟩ := h
  rw [filter_by_time_preference, if_neg h1]
  refine List.filter_eq_nil_iff.mpr ?_
  intro a _
  simp [h2, h3, h4]

/-- Witness for C10 at a concrete input: the preference `"14:00"` on a
one-slot list (the 14:00–14:30 slot of an epoch-Monday) yields the empty
list even though the slot's hour is 14. -/
theorem claim10_witness :
    filter_by_time_preference [⟨840, 870, 30⟩] "14:00" = [] :=
  claim10_unknown_preference_empty [⟨840, 870, 30⟩] "14:00" (by decide)

/-- An (optional) ISO-8601 datetime string argument, classified by which of
the source's `datetime.fromisoformat` parse sites succeed on it:
`valid date time` — the whole string parses to the given day index and
minutes past midnight (a date-only string parses with `time = 0`);
`dateOnlyBad date raw` — the prefix before `'T'` parses as a date but the
whole string does not; `malformed raw` — even the date part fails (this
includes the empty string, which is also Python-falsy). -/
inductive IsoArg
  | valid (date : Int) (time : Int)
  | dateOnlyBad (date : Int) (raw : String)
  | malformed (raw : String)
deriving DecidableEq

/-- Python truthiness of an optional string argument (`None` and `""` are
falsy, everything else truthy). -/
def strTruthy : Option String → Bool
  | none => false
  | some s => !s.isEmpty

/-- Python truthiness of an optional ISO datetime argument (an `IsoArg`
that parses at least partially came from a nonempty string). -/
def isoTruthy : Option IsoArg → Bool
  | none => false
  | some (IsoArg.valid _ _) => true
  | some (IsoArg.dateOnlyBad _ _) => true
  | some (IsoArg.malformed raw) => !raw.isEmpty

/-- `str(e)` for the exception raised by `datetime.fromisoformat` at an
argument-parsing site (`TypeError` for `None`, `ValueError` for an
unparsable string); the precise wording is presentation-only. -/
def fromisoformatError : Option IsoArg → String
  | none => "fromisoformat: argument must be str"
  | some (IsoArg.valid _ _) => ""
  | some (IsoArg.dateOnlyBad _ raw) => "Invalid isoformat string: " ++ raw
  | some (IsoArg.malformed raw) => "Invalid isoformat string: " ++ raw

/-- Result dict of `GoogleCalendarService.get_availability`: either an
error dict (`error` key present, empty slot lists) or a success dict with
the computed free slots and the gateway's busy slots. -/
structure AvailResult where
  error : Option String
  free_slots : List FreeSlot
  busy_slots : List BusyInterval
deriving DecidableEq

/-- Result dict of `GoogleCalendarService.create_event`: an error dict or
`{"success": True, "event_id": …}` (presentation fields omitted). -/
structure CreateResult where
  error : Option String
  event_id : String
deriving DecidableEq

/-- Result dict of `GoogleCalendarService.update_event`. -/
structure UpdateResult where
  error : Option String
  event_id : String
deriving DecidableEq

/-- Result dict of `GoogleCalendarService.delete_event`. -/
structure DeleteResult where
  error : Option String
deriving DecidableEq

/-- The arguments `handle_create_appointment` passes to
`calendar_service.create_event` (timezone is always `"Europe/Athens"`). -/
structure CreateReq where
  summary : String
  start_datetime : Option IsoArg
  end_datetime : Option IsoArg
  description : Option String
  patient_name : Option String
  patient_phone : Option String
deriving DecidableEq

/-- The arguments `handle_update_appointment` passes to
`calendar_service.update_event` (timezone is always `"Europe/Athens"`). -/
structure UpdateReq where
  event_id : Option String
  summary : Option String
  start_datetime : Option IsoArg
  end_datetime : Option IsoArg
  description : Option String
deriving DecidableEq

/-- The calendar-gateway interface consumed by the handlers: the four
`calendar_service` methods they invoke.  Kept abstract so that handler
theorems quantify over every gateway behaviour (initialized or not,
failing or succeeding); `realGateway` below instantiates it with the
embedded `GoogleCalendarService`. -/
structure Gateway where
  get_availability : IsoArg → Option IsoArg → AvailResult
  create_event : CreateReq → CreateResult
  update_event : UpdateReq → UpdateResult
  delete_event : Option String → DeleteResult

/-- A record of one gateway method invocation, used to state which calls a
handler performs. -/
inductive GwCall
  | getAvailability (start_date : IsoArg) (end_date : Option IsoArg)
  | createEvent (req : CreateReq)
  | updateEvent (req : UpdateReq)
  | deleteEvent (event_id : Option String)
deriving DecidableEq

/-- One argument dict passed to `params.result_callback` by a handler.
The fields every claim refers to are kept (`success`, `error`, `message`,
`event_id`, `has_availability`, `total_slots`); purely presentational
payload fields (`available_slots`, `showing_slots`, `suggestion`,
`next_available`, `all_slots`) are omitted. -/
structure HandlerResult where
  success : Bool
  error : Option String
  message : String
  event_id : Option String
  has_availability : Option Bool
  total_slots : Option Nat
deriving DecidableEq

/-- The error value used by every handler's missing-identity result. -/
def errMissingInfo : String := "Missing patient information"

/-- Localized prompt of `handle_check_doctor_availability` when identity
fields are missing (`calendar_functions.py` line 247). -/
def msgMissingCheck : String :=
  "Μια στιγμή, χρειάζομαι το όνομά σας και τον αριθμό τηλεφώνου σας για να ελέγξω τη διαθεσιμότητα."

/-- Localized prompt of `handle_get_next_available_slots` when identity
fields are missing (line 338). -/
def msgMissingNext : String :=
  "Μια στιγμή, χρειάζομαι το όνομά σας και τον αριθμό τηλεφώνου σας για να ελέγξω τα διαθέσιμα ραντεβού."

/-- Localized prompt of `handle_create_appointment` when identity fields
are missing (line 429). -/
def msgMissingCreate : String :=
  "Μια στιγμή, χρειάζομαι το όνομά σας και τον αριθμό τηλεφώνου σας για να δημιουργήσω το ραντεβού."

/-- Localized prompt of `handle_update_appointment` when identity fields
are missing (line 496). -/
def msgMissingUpdate : String :=
  "Μια στιγμή, χρειάζομαι το όνομά σας και τον αριθμό τηλεφώνου σας για να ενημερώσω το ραντεβού."

/-- Localized prompt of `handle_cancel_appointment` when identity fields
are missing (line 560). -/
def msgMissingCancel : String :=
  "Μια στιγμή, χρειάζομαι το όνομά σας και τον αριθμό τηλεφώνου σας για να ακυρώσω το ραντεβού."

/-- Gateway-failure message of the availability check (line 283). -/
def msgCheckGwFail : String :=
  "Λυπάμαι, δεν μπόρεσα να ελέγξω το ημερολόγιο αυτή τη στιγμή."

/-- No-availability message of the availability check (line 297). -/
def msgCheckNoAvail : String :=
  "Δεν υπάρχουν διαθέσιμα ραντεβού στο διάστημα που ζητήσατε."

/-- Has-availability message of the availability check (line 310). -/
def msgCheckAvailCount (n : Nat) : String :=
  "Υπάρχουν " ++ toString n ++ " διαθέσιμα ραντεβού."

/-- Catch-all message of the availability check (line 321). -/
def msgCheckCatchAll : String :=
  "Συγγνώμη, κάτι πήγε στραβά. Μπορείτε να δοκιμάσετε ξανά;"

/-- Gateway-failure message of the next-slots lookup (line 379). -/
def msgNextGwFail : String :=
  "Δεν μπόρεσα να ελέγξω τη διαθεσιμότητα αυτή τη στιγμή."

/-- No-availability message of the next-slots lookup (line 390). -/
def msgNextNoAvail : String :=
  "Δεν υπάρχουν διαθέσιμα ραντεβού τις επόμενες 2 εβδομάδες."

/-- Catch-all message of the next-slots lookup (line 412). -/
def msgNextCatchAll : String := "Λυπάμαι, κάτι πήγε στραβά."

/-- Gateway-failure message of appointment creation (line 456). -/
def msgCreateGwFail : String :=
  "Λυπάμαι, δεν μπόρεσα να δημιουργήσω το ραντεβού."

/-- Catch-all message of appointment creation (line 479). -/
def msgCreateCatchAll : String :=
  "Λυπάμαι, κάτι πήγε στραβά με τη δημιουργία του ραντεβού."

/-- Failure message of appointment update (line 526): "Sorry, I could not
update the appointment.  It may have been canceled or no longer exist." -/
def msgUpdateMaybeCanceled : String :=
  "Λυπάμαι, δεν μπόρεσα να ενημερώσω το ραντεβού. Ίσως έχει ακυρωθεί ή δεν υπάρχει πλέον."

/-- Success message of appointment update (line 533). -/
def msgUpdateSuccess : String := "Το ραντεβού σας έχει ενημερωθεί επιτυχώς!"

/-- Catch-all message of appointment update (line 543). -/
def msgUpdateCatchAll : String :=
  "Λυπάμαι, κάτι πήγε στραβά με την ενημέρωση του ραντεβού."

/-- Failure message of appointment cancellation (line 576). -/
def msgCancelFail : String :=
  "Λυπάμαι, δεν μπόρεσα να ακυρώσω το ραντεβού. Ίσως έχει ήδη ακυρωθεί."

/-- Success message of appointment cancellation (line 583). -/
def msgCancelSuccess : String :=
  "Το ραντεβού σας έχει ακυρωθεί επιτυχώς. Ελπίζουμε να σας δούμε σύντομα!"

/-- Catch-all message of appointment cancellation (line 593). -/
def msgCancelCatchAll : String :=
  "Λυπάμαι, κάτι πήγε στραβά με την ακύρωση του ραντεβού."

/-- Greek weekday names as in `_format_slots_for_llm` (lines 626–634). -/
def greekDayNames : List String :=
  ["Δευτέρα", "Τρίτη", "Τετάρτη", "Πέμπτη", "Παρασκευή", "Σάββατο", "Κυριακή"]

/-- The `readable` rendering of a slot built by `_format_slots_for_llm`
(lines 636–654): Greek weekday name, date and start time.  The dd/mm/YYYY
and HH:MM renderings of the numeric components are presentation-only and
abstracted by `toString` of the start minute; no claim inspects this
string. -/
def slotReadable (slot : FreeSlot) : String :=
  (greekDayNames.getD (weekday (dateOf slot.start)).toNat "") ++ " " ++
    toString slot.start

/-- Next-available message of the next-slots lookup (line 401). -/
def msgNextAvail (slot : FreeSlot) : String :=
  "Το επόμενο διαθέσιμο ραντεβού είναι: " ++ slotReadable slot

/-- Success message of appointment creation (line 469), for a start
datetime with day index `d` and time-of-day `t`; the day-of-month and
month-name renderings are presentation-only and abstracted by `toString`
of the numeric components. -/
def msgCreateSuccess (d t : Int) : String :=
  "Εντάξει! Το ραντεβού σας έχει κλειστεί για " ++
    (greekDayNames.getD (weekday d).toNat "") ++ ", " ++ toString d ++
    " στις " ++ toString t ++ ". Σας περιμένουμε!"

/-- The missing-identity result every handler short-circuits with:
`{"success": False, "error": "Missing patient information",
"message": <localized prompt>}`. -/
def missingInfoResult (msg : String) : HandlerResult :=
  ⟨false, some errMissingInfo, msg, none, none, none⟩

/-- A generic error result `{"success": False, "error": err,
"message": msg}` as delivered by the handlers' failure branches. -/
def errorResult (err msg : String) : HandlerResult :=
  ⟨false, some err, msg, none, none, none⟩

/-- Arguments of `check_doctor_availability`; absent keys are `none`.
Strings that should be ISO datetimes are `IsoArg`s (see above); `end_date`
is forwarded to the gateway verbatim without being parsed by the handler. -/
structure CheckArgs where
  patient_name : Option String
  patient_phone : Option String
  start_date : Option IsoArg
  end_date : Option IsoArg
  preferred_time : Option String
deriving DecidableEq

/-- Arguments of `get_next_available_slots`.  `count` is typed `Nat`; the
schema declares a nonnegative integer and Python list slicing with a
negative count is not modelled. -/
structure NextArgs where
  patient_name : Option String
  patient_phone : Option String
  from_date : Option IsoArg
  count : Option Nat
deriving DecidableEq

/-- Arguments of `create_appointment`. -/
structure CreateArgs where
  patient_name : Option String
  patient_phone : Option String
  start_datetime : Option IsoArg
  end_datetime : Option IsoArg
  appointment_type : Option String
  notes : Option String
deriving DecidableEq

/-- Arguments of `update_appointment`. -/
structure UpdateArgs where
  patient_name : Option String
  patient_phone : Option String
  event_id : Option String
  start_datetime : Option IsoArg
  end_datetime : Option IsoArg
  appointment_type : Option String
  notes : Option String
deriving DecidableEq

/-- Arguments of `cancel_appointment`. -/
structure CancelArgs where
  patient_name : Option String
  patient_phone : Option String
  event_id : Option String
deriving DecidableEq

/-- The tail of `handle_check_doctor_availability` after date validation
(`calendar_functions.py` lines 269–314): query the gateway with the
effective start date `sd`, forward `end_date` verbatim, propagate a
gateway error, otherwise filter by the preference (default `"any"`) and
report availability. -/
def checkQuery (gw : Gateway) (a : CheckArgs) (sd : IsoArg) :
    List HandlerResult × List GwCall :=
  let avail := gw.get_availability sd a.end_date
  let calls := [GwCall.getAvailability sd a.end_date]
  match avail.error with
  | some e => ([errorResult e msgCheckGwFail], calls)
  | none =>
    let preferred := a.preferred_time.getD "any"
    let free_slots :=
      if preferred ≠ "any" then filter_by_time_preference avail.free_slots preferred
      else avail.free_slots
    if free_slots.isEmpty then
      ([⟨true, none, msgCheckNoAvail, none, some false, none⟩], calls)
    else
      ([⟨true, none, msgCheckAvailCount free_slots.length, none, some true,
          some free_slots.length⟩], calls)

/-- `handle_check_doctor_availability(params)` (`calendar_functions.py`
lines 232–322), as the list of `result_callback` arguments paired with the
list of gateway calls.  Missing identity short-circuits; a falsy
`start_date` (absent or empty) is replaced by today; a past date (by date
component only, `start_dt.date() < now.date()`) is silently replaced by
today's date-only string; an unparsable nonempty `start_date` raises at
`fromisoformat` and lands in the handler's catch-all `except` branch. -/
def handle_check_doctor_availability (gw : Gateway) (today : Int)
    (a : CheckArgs) : List HandlerResult × List GwCall :=
  if !strTruthy a.patient_name || !strTruthy a.patient_phone then
    ([missingInfoResult msgMissingCheck], [])
  else
    match a.start_date with
    | none => checkQuery gw a (IsoArg.valid today 0)
    | some (IsoArg.valid d t) =>
      if d < today then checkQuery gw a (IsoArg.valid today 0)
      else checkQuery gw a (IsoArg.valid d t)
    | some (IsoArg.dateOnlyBad d raw) =>
      if d < today then checkQuery gw a (IsoArg.valid today 0)
      else checkQuery gw a (IsoArg.dateOnlyBad d raw)
    | some (IsoArg.malformed raw) =>
      if raw.isEmpty then checkQuery gw a (IsoArg.valid today 0)
      else
        ([errorResult (fromisoformatError (some (IsoArg.malformed raw)))
            msgCheckCatchAll], [])

/-- The tail of `handle_get_next_available_slots` after date validation
(lines 363–405): compute `end_date = from_date + 14 days`, query the
gateway, take the first `min(count, 10)` (default 5) free slots and
report. -/
def nextQuery (gw : Gateway) (a : NextArgs) (fd ft : Int) :
    List HandlerResult × List GwCall :=
  let endm := fd * 1440 + ft + 14 * 1440
  let sd := IsoArg.valid fd ft
  let ed := IsoArg.valid (dateOf endm) (timeOfDay endm)
  let avail := gw.get_availability sd (some ed)
  let calls := [GwCall.getAvailability sd (some ed)]
  match avail.error with
  | some e => ([errorResult e msgNextGwFail], calls)
  | none =>
    let count := min (a.count.getD 5) 10
    match avail.free_slots.take count with
    | [] => ([⟨true, none, msgNextNoAvail, none, some false, none⟩], calls)
    | s :: _ => ([⟨true, none, msgNextAvail s, none, some true, none⟩], calls)

/-- `handle_get_next_available_slots(params)` (lines 325–413).  A falsy or
date-part-unparsable `from_date` falls back to today (the parse at line
349 is guarded by an inner `except ValueError`); a past date is clamped to
today; a `from_date` whose date part parses but whose full string does not
survives validation and then raises at the unguarded re-parse
`datetime.fromisoformat(from_date)` (line 364), landing in the catch-all. -/
def handle_get_next_available_slots (gw : Gateway) (today : Int)
    (a : NextArgs) : List HandlerResult × List GwCall :=
  if !strTruthy a.patient_name || !strTruthy a.patient_phone then
    ([missingInfoResult msgMissingNext], [])
  else
    match a.from_date with
    | none => nextQuery gw a today 0
    | some (IsoArg.valid d t) =>
      if d < today then nextQuery gw a today 0
      else nextQuery gw a d t
    | some (IsoArg.dateOnlyBad d raw) =>
      if d < today then nextQuery gw a today 0
      else
        ([errorResult (fromisoformatError (some (IsoArg.dateOnlyBad d raw)))
            msgNextCatchAll], [])
    | some (IsoArg.malformed _) => nextQuery gw a today 0

/-- `handle_create_appointment(params)` (lines 416–480).  After a
successful gateway insert, the success message re-parses `start_datetime`
(line 462); if that string was absent or unparsable the parse raises and
the catch-all delivers an error result — although the event was created. -/
def handle_create_appointment (gw : Gateway) (a : CreateArgs) :
    List HandlerResult × List GwCall :=
  if !strTruthy a.patient_name || !strTruthy a.patient_phone then
    ([missingInfoResult msgMissingCreate], [])
  else
    let appointment_type := a.appointment_type.getD "έλεγχος"
    let notes := a.notes.getD ""
    let req : CreateReq :=
      ⟨appointment_type ++ " - " ++ a.patient_name.getD "", a.start_datetime,
        a.end_datetime, some notes, a.patient_name, a.patient_phone⟩
    let res := gw.create_event req
    let calls := [GwCall.createEvent req]
    match res.error with
    | some e => ([errorResult e msgCreateGwFail], calls)
    | none =>
      match a.start_datetime with
      | some (IsoArg.valid d t) =>
        ([⟨true, none, msgCreateSuccess d t, some res.event_id, none, none⟩],
          calls)
      | other =>
        ([errorResult (fromisoformatError other) msgCreateCatchAll], calls)

/-- `handle_update_appointment(params)` (lines 483–544).  The summary is
the appointment type when truthy, else `None`; `notes` is forwarded as the
description (so an absent `notes` leaves the description untouched by the
gateway's merge-patch). -/
def handle_update_appointment (gw : Gateway) (a : UpdateArgs) :
    List HandlerResult × List GwCall :=
  if !strTruthy a.patient_name || !strTruthy a.patient_phone then
    ([missingInfoResult msgMissingUpdate], [])
  else
    let summary := if strTruthy a.appointment_type then a.appointment_type else none
    let req : UpdateReq :=
      ⟨a.event_id, summary, a.start_datetime, a.end_datetime, a.notes⟩
    let res := gw.update_event req
    let calls := [GwCall.updateEvent req]
    match res.error with
    | some e => ([errorResult e msgUpdateMaybeCanceled], calls)
    | none =>
      ([⟨true, none, msgUpdateSuccess, some res.event_id, none, none⟩], calls)

/-- `handle_cancel_appointment(params)` (lines 547–594). -/
def handle_cancel_appointment (gw : Gateway) (a : CancelArgs) :
    List HandlerResult × List GwCall :=
  if !strTruthy a.patient_name || !strTruthy a.patient_phone then
    ([missingInfoResult msgMissingCancel], [])
  else
    let res := gw.delete_event a.event_id
    let calls := [GwCall.deleteEvent a.event_id]
    match res.error with
    | some e => ([errorResult e msgCancelFail], calls)
    | none =>
      ([⟨true, none, msgCancelSuccess, a.event_id, none, none⟩], calls)

/-- An event's `start`/`end` dict `{'dateTime': …, 'timeZone': …}`. -/
structure EventTime where
  dateTime : Option IsoArg
  timeZone : String
deriving DecidableEq

/-- A stored Google Calendar event, restricted to the fields the source
reads or writes (`id`, `summary`, `description`, `start`, `end`; `stop`
embeds the Python key `"end"`). -/
structure CalendarEvent where
  id : String
  summary : String
  description : String
  start : EventTime
  stop : EventTime
deriving DecidableEq

/-- The state behind `GoogleCalendarService`: whether `_initialize_service`
succeeded (`self.service is not None`), the busy intervals the remote
free/busy query reports, the stored events by id, and the id the remote
side would assign to the next inserted event. -/
structure CalendarState where
  initialized : Bool
  busy : List BusyInterval
  events : String → Option CalendarEvent
  fresh_id : String

/-- `GoogleCalendarService.get_availability(start_date, end_date, timezone)`
(`google_calendar.py` lines 59–144): error dict if the service is not
initialized; parse `start_date` (raising lands in the method's own
`except`, producing an error dict); default `end_date` to start + 7 days;
parse `end_date` likewise; then compute free slots from the remote busy
list with the default 30-minute duration. -/
def get_availability (st : CalendarState) (start_date : IsoArg)
    (end_date : Option IsoArg) : AvailResult :=
  if !st.initialized then
    ⟨some "Calendar service not initialized", [], []⟩
  else
    match start_date with
    | IsoArg.valid d t =>
      let start_dt := d * 1440 + t
      match end_date with
      | none =>
        ⟨none, calculate_free_slots start_dt (start_dt + 7 * 1440) st.busy 30,
          st.busy⟩
      | some (IsoArg.valid d2 t2) =>
        ⟨none, calculate_free_slots start_dt (d2 * 1440 + t2) st.busy 30,
          st.busy⟩
      | some bad => ⟨some (fromisoformatError (some bad)), [], []⟩
    | bad => ⟨some (fromisoformatError (some bad)), [], []⟩

/-- `GoogleCalendarService.create_event(...)` (lines 275–356): error dict
if uninitialized; build the description by appending the identity fields
when truthy and stripping; insert the event (the remote side rejects a
body without parsable start/end datetimes — an `HttpError` caught into an
error dict — and otherwise assigns `fresh_id`). -/
def create_event (st : CalendarState) (req : CreateReq) (timezone : String) :
    CreateResult × CalendarState :=
  if !st.initialized then (⟨some "Calendar service not initialized", ""⟩, st)
  else
    match req.start_datetime, req.end_datetime with
    | some (IsoArg.valid _ _), some (IsoArg.valid _ _) =>
      let desc0 := req.description.getD ""
      let desc1 := desc0 ++
        (match req.patient_name with
          | some n => if !n.isEmpty then "\nΌνομα: " ++ n else ""
          | none => "")
      let desc2 := desc1 ++
        (match req.patient_phone with
          | some p => if !p.isEmpty then "\nΤηλέφωνο: " ++ p else ""
          | none => "")
      let ev : CalendarEvent :=
        ⟨st.fresh_id, req.summary, desc2.trim,
          ⟨req.start_datetime, timezone⟩, ⟨req.end_datetime, timezone⟩⟩
      (⟨none, st.fresh_id⟩,
        { st with events := fun i => if i = st.fresh_id then some ev else st.events i })
    | _, _ => (⟨some "Calendar API error: invalid event body", ""⟩, st)

/-- `GoogleCalendarService.update_event(event_id, summary, start_datetime,
end_datetime, description, timezone)` (lines 358–432): error dict if
uninitialized; fetch the current event (`events().get`; a missing id
raises an `HttpError`, caught into an error dict — the already-canceled
case); apply exactly the provided fields (`if summary:`,
`if description is not None:`, `if start_datetime:`, `if end_datetime:`)
onto the fetched event; write the patched event back. -/
def update_event (st : CalendarState) (req : UpdateReq) (timezone : String) :
    UpdateResult × CalendarState :=
  if !st.initialized then (⟨some "Calendar service not initialized", ""⟩, st)
  else
    match req.event_id with
    | none => (⟨some "Calendar API error: invalid event id", ""⟩, st)
    | some eid =>
      match st.events eid with
      | none => (⟨some "Calendar API error: 404 event not found", ""⟩, st)
      | some ev =>
        let ev1 :=
          match req.summary with
          | some s => if !s.isEmpty then { ev with summary := s } else ev
          | none => ev
        let ev2 :=
          match req.description with
          | some dsc => { ev1 with description := dsc }
          | none => ev1
        let ev3 :=
          if isoTruthy req.start_datetime then
            { ev2 with start := ⟨req.start_datetime, timezone⟩ }
          else ev2
        let ev4 :=
          if isoTruthy req.end_datetime then
            { ev3 with stop := ⟨req.end_datetime, timezone⟩ }
          else ev3
        (⟨none, ev4.id⟩,
          { st with events := fun i => if i = eid then some ev4 else st.events i })

/-- `GoogleCalendarService.delete_event(event_id)` (lines 434–469):
error dict if uninitialized; deleting a missing event raises an
`HttpError` on the remote side, caught into an error dict. -/
def delete_event (st : CalendarState) (event_id : Option String) :
    DeleteResult × CalendarState :=
  if !st.initialized then (⟨some "Calendar service not initialized"⟩, st)
  else
    match event_id with
    | none => (⟨some "Calendar API error: invalid event id"⟩, st)
    | some eid =>
      match st.events eid with
      | none => (⟨some "Calendar API error: 404 event not found"⟩, st)
      | some _ =>
        (⟨none⟩, { st with events := fun i => if i = eid then none else st.events i })

/-- The gateway interface as implemented by the embedded
`GoogleCalendarService` over a calendar state; the handlers always pass
timezone `"Europe/Athens"`. -/
def realGateway (st : CalendarState) : Gateway :=
  ⟨fun sd ed => get_availability st sd ed,
    fun req => (create_event st req "Europe/Athens").1,
    fun req => (update_event st req "Europe/Athens").1,
    fun eid => (delete_event st eid).1⟩

/-- A concrete gateway for instantiating theorems: the uninitialized
service (no credentials configured), whose every method returns an error
dict, exactly as in the source's degraded mode. -/
def stubGateway : Gateway := realGateway ⟨false, [], fun _ => none, ""⟩

/-- Whatever the gateway answers, `checkQuery` performs exactly the one
`get_availability` call, with the effective start date and the verbatim
`end_date`. -/
theorem checkQuery_calls (gw : Gateway) (a : CheckArgs) (sd : IsoArg) :
    (checkQuery gw a sd).2 = [GwCall.getAvailability sd a.end_date] := by
  cases h : (gw.get_availability sd a.end_date).error
  · simp only [checkQuery, h]
    split <;> split <;> rfl
  · simp only [checkQuery, h]

/-- `checkQuery` always delivers exactly one result. -/
theorem checkQuery_len (gw : Gateway) (a : CheckArgs) (sd : IsoArg) :
    ((checkQuery gw a sd).1).length = 1 := by
  cases h : (gw.get_availability sd a.end_date).error
  · simp only [checkQuery, h]
    split <;> split <;> rfl
  · simp only [checkQuery, h]
    rfl

/-- `nextQuery` always delivers exactly one result. -/
theorem nextQuery_len (gw : Gateway) (a : NextArgs) (fd ft : Int) :
    ((nextQuery gw a fd ft).1).length = 1 := by
  cases h : (gw.get_availability (IsoArg.valid fd ft)
      (some (IsoArg.valid (dateOf (fd * 1440 + ft + 14 * 1440))
        (timeOfDay (fd * 1440 + ft + 14 * 1440))))).error
  · simp only [nextQuery, h]
    split <;> rfl
  · simp only [nextQuery, h]
    rfl

/-- Claim C4: for a check-availability request whose `start_date` has a
date component strictly before today, the effective query start passed to
the gateway is today's date (as a date-only value, i.e. with time
component 0) regardless of the request's time component, and the
substitution is silent: the delivered results are exactly those of the
same request with `start_date` replaced by today — in particular no error
is reported for the past date. -/
theorem claim4_past_date_clamped (gw : Gateway) (today : Int) (a : CheckArgs)
    (d t : Int)
    (hname : strTruthy a.patient_name = true)
    (hphone : strTruthy a.patient_phone = true)
    (hsd : a.start_date = some (IsoArg.valid d t))
    (hpast : d < today) :
    (handle_check_doctor_availability gw today a).2 =
      [GwCall.getAvailability (IsoArg.valid today 0) a.end_date] ∧
    (handle_check_doctor_availability gw today a).1 =
      (handle_check_doctor_availability gw today
        { a with start_date := some (IsoArg.valid today 0) }).1 := by
  have hred : handle_check_doctor_availability gw today a =
      checkQuery gw a (IsoArg.valid today 0) := by
    simp [handle_check_doctor_availability, hname, hphone, hsd, hpast]
  have hred2 : handle_check_doctor_availability gw today
      { a with start_date := some (IsoArg.valid today 0) } =
      checkQuery gw { a with start_date := some (IsoArg.valid today 0) }
        (IsoArg.valid today 0) := by
    simp [handle_check_doctor_availability, hname, hphone]
  refine ⟨?_, ?_⟩
  · rw [hred]
    exact checkQuery_calls gw a (IsoArg.valid today 0)
  · rw [hred, hred2]
    rfl

/-- Witness for C4 at a concrete input: identity present, `start_date` on
day 7 at 10:00 while "today" is day 10; the gateway (here the
uninitialized stub) is queried with day 10 at midnight, and the results
equal those of the request already carrying today's date. -/
theorem claim4_witness :
    (handle_check_doctor_availability stubGateway 10
        ⟨some "Μαρία Παπαδοπούλου", some "6971234567",
          some (IsoArg.valid 7 600), none, none⟩).2 =
      [GwCall.getAvailability (IsoArg.valid 10 0) none] ∧
    (handle_check_doctor_availability stubGateway 10
        ⟨some "Μαρία Παπαδοπούλου", some "6971234567",
          some (IsoArg.valid 7 600), none, none⟩).1 =
      (handle_check_doctor_availability stubGateway 10
        ⟨some "Μαρία Παπαδοπούλου", some "6971234567",
          some (IsoArg.valid 10 0), none, none⟩).1 :=
  claim4_past_date_clamped stubGateway 10
    ⟨some "Μαρία Παπαδοπούλου", some "6971234567",
      some (IsoArg.valid 7 600), none, none⟩
    7 600 (by decide) (by decide) rfl (by decide)

/-- Claim C5: in every one of the five handlers, a missing or empty
`patient_name` or `patient_phone` short-circuits: the handler delivers
exactly the structured missing-identity result (`success = false`, error
`"Missing patient information"`, the handler's localized prompt) and
performs no gateway call (empty call list).  The trailing conjuncts record
that this result is indeed an error result and that the five prompts are
nonempty localized strings. -/
theorem claim5_missing_identity_short_circuit (gw : Gateway) (today : Int) :
    (∀ a : CheckArgs,
      strTruthy a.patient_name = false ∨ strTruthy a.patient_phone = false →
      handle_check_doctor_availability gw today a =
        ([missingInfoResult msgMissingCheck], [])) ∧
    (∀ a : NextArgs,
      strTruthy a.patient_name = false ∨ strTruthy a.patient_phone = false →
      handle_get_next_available_slots gw today a =
        ([missingInfoResult msgMissingNext], [])) ∧
    (∀ a : CreateArgs,
      strTruthy a.patient_name = false ∨ strTruthy a.patient_phone = false →
      handle_create_appointment gw a =
        ([missingInfoResult msgMissingCreate], [])) ∧
    (∀ a : UpdateArgs,
      strTruthy a.patient_name = false ∨ strTruthy a.patient_phone = false →
      handle_update_appointment gw a =
        ([missingInfoResult msgMissingUpdate], [])) ∧
    (∀ a : CancelArgs,
      strTruthy a.patient_name = false ∨ strTruthy a.patient_phone = false →
      handle_cancel_appointment gw a =
        ([missingInfoResult msgMissingCancel], [])) ∧
    (∀ msg, (missingInfoResult msg).success = false ∧
      (missingInfoResult msg).error = some errMissingInfo) ∧
    msgMissingCheck ≠ "" ∧ msgMissingNext ≠ "" ∧ msgMissingCreate ≠ "" ∧
    msgMissingUpdate ≠ "" ∧ msgMissingCancel ≠ "" := by
  refine ⟨?_, ?_, ?_, ?_, ?_, fun msg => ⟨rfl, rfl⟩,
    by decide, by decide, by decide, by decide, by decide⟩
  · intro a h
    have hcond : (!strTruthy a.patient_name || !strTruthy a.patient_phone) = true := by
      rcases h with h | h <;> simp [h]
    simp [handle_check_doctor_availability, hcond]
  · intro a h
    have hcond : (!strTruthy a.patient_name || !strTruthy a.patient_phone) = true := by
      rcases h with h | h <;> simp [h]
    simp [handle_get_next_available_slots, hcond]
  · intro a h
    have hcond : (!strTruthy a.patient_name || !strTruthy a.patient_phone) = true := by
      rcases h with h | h <;> simp [h]
    simp [handle_create_appointment, hcond]
  · intro a h
    have hcond : (!strTruthy a.patient_name || !strTruthy a.patient_phone) = true := by
      rcases h with h | h <;> simp [h]
    simp [handle_update_appointment, hcond]
  · intro a h
    have hcond : (!strTruthy a.patient_name || !strTruthy a.patient_phone) = true := by
      rcases h with h | h <;> simp [h]
    simp [handle_cancel_appointment, hcond]

/-- Witness for C5 at a concrete input: `create_appointment` with a
patient name but a missing `patient_phone` (the spec's scenario) delivers
the missing-identity error result and invokes no gateway method. -/
theorem claim5_witness :
    handle_create_appointment stubGateway
      ⟨some "Μαρία Παπαδοπούλου", none, some (IsoArg.valid 17 540),
        some (IsoArg.valid 17 570), none, none⟩ =
      ([missingInfoResult msgMissingCreate], []) :=
  (claim5_missing_identity_short_circuit stubGateway 0).2.2.1
    ⟨some "Μαρία Παπαδοπούλου", none, some (IsoArg.valid 17 540),
      some (IsoArg.valid 17 570), none, none⟩
    (Or.inr (by decide))

/-- Claim C7: every handler delivers exactly one structured result per
call (one `result_callback` invocation), for every gateway behaviour —
including error-reporting and uninitialized gateways — and every argument
mapping, including those whose malformed dates raise internally and land
in the handler's catch-all `except` branch; the embedding is total, so no
exception escapes a handler. -/
theorem claim7_exactly_one_result (gw : Gateway) (today : Int) :
    (∀ a : CheckArgs,
      ((handle_check_doctor_availability gw today a).1).length = 1) ∧
    (∀ a : NextArgs,
      ((handle_get_next_available_slots gw today a).1).length = 1) ∧
    (∀ a : CreateArgs, ((handle_create_appointment gw a).1).length = 1) ∧
    (∀ a : UpdateArgs, ((handle_update_appointment gw a).1).length = 1) ∧
    (∀ a : CancelArgs, ((handle_cancel_appointment gw a).1).length = 1) := by
  refine ⟨?_, ?_, ?_, ?_, ?_⟩
  · intro a
    simp only [handle_check_doctor_availability]
    repeat' split
    all_goals first
      | rfl
      | exact checkQuery_len gw a _
  · intro a
    simp only [handle_get_next_available_slots]
    repeat' split
    all_goals first
      | rfl
      | exact nextQuery_len gw a _ _
  · intro a
    simp only [handle_create_appointment]
    repeat' split
    all_goals rfl
  · intro a
    simp only [handle_update_appointment]
    repeat' split
    all_goals rfl
  · intro a
    simp only [handle_cancel_appointment]
    repeat' split
    all_goals rfl

/-- Claim C6: an `update_appointment` request (with identity present) whose
`event_id` the gateway reports as missing — the `events().get` inside
`update_event` raises an `HttpError`, caught into an error dict — is
delivered as exactly one structured result with `success = false` and the
localized "may already be canceled" message
(`msgUpdateMaybeCanceled`); the handler is a total function, so no
exception reaches its caller. -/
theorem claim6_update_missing_event (st : CalendarState) (a : UpdateArgs)
    (eid : String)
    (hinit : st.initialized = true)
    (hname : strTruthy a.patient_name = true)
    (hphone : strTruthy a.patient_phone = true)
    (heid : a.event_id = some eid)
    (hmissing : st.events eid = none) :
    (handle_update_appointment (realGateway st) a).1 =
      [errorResult "Calendar API error: 404 event not found"
        msgUpdateMaybeCanceled] := by
  simp [handle_update_appointment, realGateway, update_event,
    hname, hphone, hinit, heid, hmissing]

/-- Witness for C6 at a concrete input: an initialized service with an
empty event store and an update request for `"evt-1"`. -/
theorem claim6_witness :
    (handle_update_appointment
        (realGateway ⟨true, [], fun _ => none, ""⟩)
        ⟨some "Γιώργος Παππάς", some "2101234567", some "evt-1",
          none, none, none, none⟩).1 =
      [errorResult "Calendar API error: 404 event not found"
        msgUpdateMaybeCanceled] :=
  claim6_update_missing_event ⟨true, [], fun _ => none, ""⟩
    ⟨some "Γιώργος Παππάς", some "2101234567", some "evt-1",
      none, none, none, none⟩
    "evt-1" rfl (by decide) (by decide) rfl rfl

/-- Claim C9: `update_event` is a merge-patch, not a full replace.  When
the target event exists, the write-back succeeds and the stored event is
exactly the fetched event with only the provided fields overwritten:
`summary` only when provided and nonempty (`if summary:`), `description`
whenever provided, even empty (`if description is not None:`), `start` and
`end` only when provided truthy (`if start_datetime:` /
`if end_datetime:`); every field not provided keeps the fetched value, the
event id is untouched, and every other stored event is untouched. -/
theorem claim9_update_merge_patch (st : CalendarState) (eid : String)
    (ev : CalendarEvent) (summary : Option String) (sdt edt : Option IsoArg)
    (dsc : Option String) (tz : String)
    (hinit : st.initialized = true)
    (hev : st.events eid = some ev) :
    (update_event st ⟨some eid, summary, sdt, edt, dsc⟩ tz).1.error = none ∧
    (update_event st ⟨some eid, summary, sdt, edt, dsc⟩ tz).2.events eid =
      some ⟨ev.id,
        (match summary with
          | some s => if !s.isEmpty then s else ev.summary
          | none => ev.summary),
        (match dsc with
          | some s => s
          | none => ev.description),
        (if isoTruthy sdt then ⟨sdt, tz⟩ else ev.start),
        (if isoTruthy edt then ⟨edt, tz⟩ else ev.stop)⟩ ∧
    ∀ i, i ≠ eid →
      (update_event st ⟨some eid, summary, sdt, edt, dsc⟩ tz).2.events i =
        st.events i := by
  refine ⟨by simp [update_event, hinit, hev], ?_, ?_⟩
  · rcases summary with _ | s <;> rcases dsc with _ | ds <;>
      by_cases ht1 : isoTruthy sdt = true <;>
      by_cases ht2 : isoTruthy edt = true <;>
      simp [update_event, hinit, hev, ht1, ht2] <;>
      by_cases hs : s.isEmpty <;> simp [hs]
  · intro i hi
    simp [update_event, hinit, hev, hi]

/-- A sample stored event used to instantiate the merge-patch theorem. -/
def sampleEvent : CalendarEvent :=
  ⟨"evt-1", "έλεγχος - Μαρία", "σημειώσεις",
    ⟨some (IsoArg.valid 20 600), "Europe/Athens"⟩,
    ⟨some (IsoArg.valid 20 630), "Europe/Athens"⟩⟩

/-- A sample initialized calendar state holding only `sampleEvent`. -/
def sampleState : CalendarState :=
  ⟨true, [], fun i => if i = "evt-1" then some sampleEvent else none, "new-1"⟩

/-- Witness for C9 at a concrete input: updating `"evt-1"` with a new
summary and start but no end datetime and no notes changes exactly those
two fields; the description and the end keep their fetched values. -/
theorem claim9_witness :
    (update_event sampleState
        ⟨some "evt-1", some "θεραπεία", some (IsoArg.valid 21 600), none, none⟩
        "Europe/Athens").1.error = none ∧
    (update_event sampleState
        ⟨some "evt-1", some "θεραπεία", some (IsoArg.valid 21 600), none, none⟩
        "Europe/Athens").2.events "evt-1" =
      some ⟨"evt-1", "θεραπεία", "σημειώσεις",
        ⟨some (IsoArg.valid 21 600), "Europe/Athens"⟩,
        ⟨some (IsoArg.valid 20 630), "Europe/Athens"⟩⟩ ∧
    ∀ i, i ≠ "evt-1" →
      (update_event sampleState
          ⟨some "evt-1", some "θεραπεία", some (IsoArg.valid 21 600), none, none⟩
          "Europe/Athens").2.events i = sampleState.events i :=
  claim9_update_merge_patch sampleState "evt-1" sampleEvent
    (some "θεραπεία") (some (IsoArg.valid 21 600)) none none
    "Europe/Athens" rfl rfl
